import Mathlib

/-!
Verification of the ally-components widgets (accordion and dialog).

The development shallowly embeds the two source files:
* `src/unnamed/part_000` — the accordion controller (`accordion`) and the
  inert-variant dialog controller (`dialog` with `open`/`close` and
  `checkCloseDialog`);
* `src/build/dialog.js` — the built-artifact dialog variant (`dialog.show`,
  `dialog.close`, `keydownHandler`, `clickHandler`) that implements the modal
  focus trap by saving and rewriting `tabindex` attributes.

DOM attribute state is modelled as total functions from element indices;
DOM tree positions (for the ancestor walks) are modelled as root-last paths
(`List Nat`, where the tail of a path is the parent element and `[]` is the
document root).  Event dispatch is modelled by returning the list of emitted
events alongside the new state.
-/

namespace AllyComponents

/-- Pointwise update of an attribute map, the effect of one
`el.setAttribute` call on the modelled attribute. -/
def setFn {α : Type} (f : Nat → α) (i : Nat) (v : α) : Nat → α :=
  fun j => if j = i then v else f j

namespace Accordion

/-- Options read from the container element at enhancement time
(`element.hasAttribute(...)` for `expanded`, `multiple`, `wrap-focus`). -/
structure Options where
  expanded : Bool
  multiple : Bool
  wrapFocus : Bool

/-- State of one accordion instance: the per-tab attributes
(`aria-expanded`, `aria-selected`, `tabindex`), the per-panel `aria-hidden`
attribute, and the two mutable controller variables `currentTabIndex` and
`currentTab` (the latter stored as the index of the element the reference
points at). `tabstop i = true` models `tabindex="0"`, `false` models
`tabindex="-1"`. -/
structure AccState where
  expandedA : Nat → Bool
  selectedA : Nat → Bool
  tabstop : Nat → Bool
  hiddenA : Nat → Bool
  currentTabIndex : Nat
  currentTab : Nat

/-- The four custom events the accordion dispatches; the payload is the
index of the tab passed as the event detail. -/
inductive AccEvent where
  | expanded (tab : Nat)
  | collapsed (tab : Nat)
  | focused (tab : Nat)
  | blurred (tab : Nat)
deriving DecidableEq

/-- Primitive observable actions of the accordion code, in program order:
attribute writes, `el.focus()` calls and event dispatches. -/
inductive Act where
  | setSelected (i : Nat) (b : Bool)
  | setTabindexZero (i : Nat) (b : Bool)
  | setExpanded (i : Nat) (b : Bool)
  | setHidden (i : Nat) (b : Bool)
  | focusEl (i : Nat)
  | dispatch (e : AccEvent)
deriving DecidableEq

/-- Initial state produced by the enhancement loops of `accordion`: every tab
gets `aria-expanded` = OPTIONS.expanded, `aria-selected` and `tabindex=0`
only at index 0, every panel gets `aria-hidden` = !OPTIONS.expanded;
`currentTabIndex = 0` and `currentTab = tabs[0]`. -/
def accInit (opts : Options) : AccState :=
  { expandedA := fun _ => opts.expanded
    selectedA := fun i => i == 0
    tabstop := fun i => i == 0
    hiddenA := fun _ => !opts.expanded
    currentTabIndex := 0
    currentTab := 0 }

/-- `updateFocusState` from the source: deselect and un-tab-stop the old
`currentTab`, dispatch `accordion-blurred`, then move `currentTab` to
`tabs[currentTabIndex]`, select it, give it the tab stop, focus it and
dispatch `accordion-focused`.  The returned list is the trace of primitive
actions in execution order. -/
def updateFocusState (s : AccState) : AccState × List Act :=
  let old := s.currentTab
  let s1 := { s with selectedA := setFn s.selectedA old false
                     tabstop := setFn s.tabstop old false }
  let nw := s1.currentTabIndex
  let s2 := { s1 with currentTab := nw
                      selectedA := setFn s1.selectedA nw true
                      tabstop := setFn s1.tabstop nw true }
  (s2, [Act.setSelected old false, Act.setTabindexZero old false,
        Act.dispatch (AccEvent.blurred old),
        Act.setSelected nw true, Act.setTabindexZero nw true,
        Act.focusEl nw, Act.dispatch (AccEvent.focused nw)])

/-- `root.querySelector('[aria-expanded="true"]')`: the first tab (in
document order) whose `aria-expanded` attribute is `"true"`. -/
def firstExpanded (n : Nat) (s : AccState) : Option Nat :=
  (List.range n).find? (fun i => s.expandedA i)

/-- The collapse branch of `toggleTabPanel`: set `aria-expanded` to false on
the tab, `aria-hidden` to true on its panel, and dispatch
`accordion-collapsed`. -/
def toggleCollapseBranch (s : AccState) (t : Nat) : AccState × List Act :=
  ({ s with expandedA := setFn s.expandedA t false
            hiddenA := setFn s.hiddenA t true },
   [Act.setExpanded t false, Act.setHidden t true,
    Act.dispatch (AccEvent.collapsed t)])

/-- `toggleTabPanel` from the source.  When the toggled tab is collapsed and
multi-open is not enabled, the code first makes a recursive call
`toggleTabPanel(openTab)` on the first tab with `aria-expanded="true"`.
That recursive call always receives a tab whose `aria-expanded` is true and
therefore executes exactly the collapse branch of `toggleTabPanel`
(`toggleCollapseBranch` here), which is how it is rendered below. -/
def toggleTabPanel (opts : Options) (n : Nat) (s : AccState) (t : Nat) :
    AccState × List Act :=
  if s.expandedA t = false then
    match (if opts.multiple = false then firstExpanded n s else none) with
    | some u =>
        let r := toggleCollapseBranch s u
        ({ r.1 with expandedA := setFn r.1.expandedA t true
                    hiddenA := setFn r.1.hiddenA t false },
         r.2 ++ [Act.setExpanded t true, Act.setHidden t false,
                 Act.dispatch (AccEvent.expanded t)])
    | none =>
        ({ s with expandedA := setFn s.expandedA t true
                  hiddenA := setFn s.hiddenA t false },
         [Act.setExpanded t true, Act.setHidden t false,
          Act.dispatch (AccEvent.expanded t)])
  else
    toggleCollapseBranch s t

/-- The left/up-arrow branch of the keydown handler: previous index with
optional wrapping. -/
def prevIndex (opts : Options) (lastTabIndex cur : Nat) : Nat :=
  if opts.wrapFocus then (if cur = 0 then lastTabIndex else cur - 1)
  else (if cur = 0 then 0 else cur - 1)

/-- The right/down-arrow branch of the keydown handler: next index with
optional wrapping. -/
def nextIndex (opts : Options) (lastTabIndex cur : Nat) : Nat :=
  if opts.wrapFocus then (if cur = lastTabIndex then 0 else cur + 1)
  else (if cur = lastTabIndex then lastTabIndex else cur + 1)

/-- The user interactions handled by the accordion: the keydown switch
branches (arrow keys, home, end, enter, space) and a mousedown on the tab at
a given index. -/
inductive AccCmd where
  | left | up | right | down | home | endKey | enter | space
  | mouse (i : Nat)

/-- A command is well formed when a mousedown targets an existing tab
(`tabs.indexOf(e.target)` is a valid index). -/
def cmdOk (n : Nat) : AccCmd → Bool
  | AccCmd.mouse i => decide (i < n)
  | _ => true

/-- One step of the accordion controller: the event-handler body executed
for a single user interaction, where `n` is the number of tabs
(`lastTabIndex = n - 1`). -/
def accStep (opts : Options) (n : Nat) (s : AccState) : AccCmd → AccState × List Act
  | AccCmd.left =>
      updateFocusState { s with currentTabIndex := prevIndex opts (n - 1) s.currentTabIndex }
  | AccCmd.up =>
      updateFocusState { s with currentTabIndex := prevIndex opts (n - 1) s.currentTabIndex }
  | AccCmd.right =>
      updateFocusState { s with currentTabIndex := nextIndex opts (n - 1) s.currentTabIndex }
  | AccCmd.down =>
      updateFocusState { s with currentTabIndex := nextIndex opts (n - 1) s.currentTabIndex }
  | AccCmd.endKey =>
      updateFocusState { s with currentTabIndex := n - 1 }
  | AccCmd.home =>
      updateFocusState { s with currentTabIndex := 0 }
  | AccCmd.enter =>
      toggleTabPanel opts n s s.currentTab
  | AccCmd.space =>
      toggleTabPanel opts n s s.currentTab
  | AccCmd.mouse i =>
      let r := updateFocusState { s with currentTabIndex := i }
      let r2 := toggleTabPanel opts n r.1 r.1.currentTab
      (r2.1, r.2 ++ r2.2)

/-- Run a sequence of user interactions from the freshly enhanced state. -/
def accRun (opts : Options) (n : Nat) (cmds : List AccCmd) : AccState :=
  cmds.foldl (fun s c => (accStep opts n s c).1) (accInit opts)

/-- Roving-tab-stop invariant: the tracked `currentTab` reference agrees with
`currentTabIndex`, the index is in range, and a tab carries the tab stop
exactly when it is the current one. -/
abbrev FocusInv (n : Nat) (s : AccState) : Prop :=
  s.currentTab = s.currentTabIndex ∧ s.currentTabIndex < n ∧
  ∀ i, i < n → (s.tabstop i = true ↔ i = s.currentTabIndex)

/-- Panels mirror their tabs: `aria-hidden` is the negation of the tab's
`aria-expanded`. -/
abbrev Sync (n : Nat) (s : AccState) : Prop :=
  ∀ i, i < n → s.hiddenA i = !s.expandedA i

/-- At most one panel is visible (`aria-hidden="false"`). -/
abbrev AtMostOnePanel (n : Nat) (s : AccState) : Prop :=
  ∀ i, i < n → ∀ j, j < n → s.hiddenA i = false → s.hiddenA j = false → i = j

end Accordion

/-- A dispatched custom event: its type name, its `bubbles` flag and its
`detail` payload (the identity of the affected element, when present).
The CustomEvent constructor defaults `bubbles` to `false` when the option is
not supplied. -/
structure DEv where
  name : String
  bubbles : Bool
  detail : Option Nat
deriving DecidableEq

/-- The ancestor walk shared by `checkCloseDialog` (inert variant) and
`clickHandler` (build variant):

`while (el.parentElement) { if (el === dialog) break; el = el.parentElement }`

Elements are root-last paths; `[]` is the document root (no parent) and the
parent of `i :: p` is `p`. -/
def climb (dlg : List Nat) : List Nat → List Nat
  | [] => []
  | i :: p => if i :: p = dlg then i :: p else climb dlg p

namespace Dialog

/-- The presence-based attributes of the container element that the
documentation of the inert-variant dialog names: `modeless` and `no-esc`. -/
structure ElemAttrs where
  modeless : Bool
  noEsc : Bool

/-- The OPTIONS record the inert-variant `dialog` function builds at
enhancement time.  Note that it reads only the `modeless` attribute: the
documented `no-esc` attribute is never consulted anywhere in the code. -/
structure DOptions where
  modeless : Bool

/-- `var OPTIONS = { modeless: element.hasAttribute('modeless') }`. -/
def mkOptions (a : ElemAttrs) : DOptions :=
  { modeless := a.modeless }

/-- Static configuration of one enhanced dialog: its attributes, the focus
identity of the dialog element, its position in the DOM tree, and the result
of `dialog.querySelector('[autofocus]')`. -/
structure DialogCfg where
  attrs : ElemAttrs
  dialogEl : Nat
  dlgPath : List Nat
  autofocusEl : Option Nat

/-- Mutable document state the inert-variant dialog manipulates: the `inert`
flags of the children of `document.body` (the dialog root sits at index
`rootIdx`), the body `overflow:hidden` style, `document.activeElement`, the
registration state of the page-level `click`/`keydown` listeners, the `open`
attribute of the dialog, and the `previousActiveElement` variable. -/
structure DialogDoc where
  nSiblings : Nat
  rootIdx : Nat
  siblingInert : Nat → Bool
  overflowHidden : Bool
  activeElement : Nat
  listening : Bool
  dialogOpen : Bool
  previousActiveElement : Option Nat

/-- `dialog.open` from the inert variant: no-op when the `open` attribute is
present; otherwise capture `document.activeElement`, and when modal set
`overflow:hidden` and `child.inert = true` on every body child other than
the dialog root; then set `open`, register the listeners, focus the
autofocus element (or the dialog itself when none exists) and dispatch
`modal-opened` with the dialog as detail. -/
def dialogOpenFn (cfg : DialogCfg) (s : DialogDoc) : DialogDoc × List DEv :=
  let opts := mkOptions cfg.attrs
  if s.dialogOpen then (s, [])
  else
    let s1 := { s with previousActiveElement := some s.activeElement }
    let s2 :=
      if opts.modeless = false then
        { s1 with overflowHidden := true
                  siblingInert := fun i =>
                    if i < s1.nSiblings ∧ i ≠ s1.rootIdx then true
                    else s1.siblingInert i }
      else s1
    let s3 := { s2 with dialogOpen := true, listening := true }
    let s4 := { s3 with activeElement :=
                  (match cfg.autofocusEl with
                   | none => cfg.dialogEl
                   | some a => a) }
    (s4, [{ name := "modal-opened", bubbles := false, detail := some cfg.dialogEl }])

/-- `dialog.close` from the inert variant: no-op when the `open` attribute is
absent; otherwise, when modal, clear `overflow:hidden` and set
`child.inert = false` on every body child other than the dialog root;
remove `open`, unregister the listeners, focus `previousActiveElement`
(the source would throw if that reference were null, which cannot happen
right after a completed `open`), clear the reference and dispatch
`modal-closed` with the dialog as detail. -/
def dialogCloseFn (cfg : DialogCfg) (s : DialogDoc) : DialogDoc × List DEv :=
  let opts := mkOptions cfg.attrs
  if s.dialogOpen = false then (s, [])
  else
    let s1 :=
      if opts.modeless = false then
        { s with overflowHidden := false
                 siblingInert := fun i =>
                   if i < s.nSiblings ∧ i ≠ s.rootIdx then false
                   else s.siblingInert i }
      else s
    let s2 := { s1 with dialogOpen := false, listening := false }
    let restored : Nat :=
      match s2.previousActiveElement with
      | some p => p
      | none => s2.activeElement
    let s3 := { s2 with activeElement := restored, previousActiveElement := none }
    (s3, [{ name := "modal-closed", bubbles := false, detail := some cfg.dialogEl }])

/-- Kinds of document-level events the inert variant registers a single
handler for. -/
inductive EvKind where
  | click
  | keydown
deriving DecidableEq

/-- A document-level event: its type, its key code (`e.which`, meaningful for
keydown) and the path of its target element. -/
structure DocEvent where
  kind : EvKind
  which : Nat
  target : List Nat

/-- `checkCloseDialog` from the inert variant: close on Escape keydown;
for every other event (clicks, but also any non-Escape keydown) walk the
ancestor chain from the target and close the dialog unless the walk reached
the dialog element. -/
def checkCloseDialog (cfg : DialogCfg) (e : DocEvent) (s : DialogDoc) :
    DialogDoc × List DEv :=
  if e.kind = EvKind.keydown ∧ e.which = 27 then
    dialogCloseFn cfg s
  else
    let el := climb cfg.dlgPath e.target
    if el ≠ cfg.dlgPath then dialogCloseFn cfg s else (s, [])

/-- Delivery of a document-level event: `checkCloseDialog` runs only while
the listeners registered by `open` are in place. -/
def docDeliver (cfg : DialogCfg) (e : DocEvent) (s : DialogDoc) :
    DialogDoc × List DEv :=
  if s.listening then checkCloseDialog cfg e s else (s, [])

end Dialog

namespace BuildDialog

/-- One element under `document.body` as seen by the build-variant focus
trap: whether it is a descendant of this modal dialog, whether it carries
`role="dialog"`, its `tabindex` attribute (as an integer value, `none` when
the attribute is absent) and the `_prevTabindex` expando property. -/
structure BuildNode where
  inModal : Bool
  roleDialog : Bool
  tabindexAttr : Option Int
  prevTabindex : Option Int

/-- Static configuration of one build-variant dialog: the `modeless`
attribute (fixed as `dialog.type` at enhancement time), the focus identity
of the dialog element, its DOM path, and the first visible `[autofocus]`
descendant when one exists. -/
structure BuildCfg where
  modeless : Bool
  dialogEl : Nat
  dlgPath : List Nat
  autofocusEl : Option Nat

/-- Mutable state of the build-variant dialog: the nodes under body, the
`_nonModalNodes` node list captured by the deferred block of `show`, the
`aria-hidden` attribute (present means closed), the body overflow style,
`document.activeElement`, the `_lastFocusedElement` property and the
listener registration state. -/
structure BuildState where
  nNodes : Nat
  nodes : Nat → BuildNode
  nonModalNodes : Nat → Bool
  ariaHidden : Bool
  overflowHidden : Bool
  activeElement : Nat
  lastFocused : Option Nat
  listening : Bool

/-- `dialog.show` from the build variant, with the deferred (setTimeout)
tabindex walk applied as the continuation it schedules: no-op unless
`aria-hidden` is present; otherwise remove `aria-hidden`, save
`_lastFocusedElement`, focus the first visible autofocus element (or the
dialog), and when modal set `overflow:hidden`, capture `_nonModalNodes` as
every body descendant that is not a dialog and does not already have
`tabindex="-1"`, and for each captured node outside the modal save its
`tabindex` attribute into `_prevTabindex` and set `tabindex="-1"`; finally
register the keydown and mousedown listeners. -/
def buildShow (cfg : BuildCfg) (s : BuildState) : BuildState × List DEv :=
  if s.ariaHidden = false then (s, [])
  else
    let s1 := { s with ariaHidden := false, lastFocused := some s.activeElement }
    let s2 := { s1 with activeElement :=
                  (match cfg.autofocusEl with
                   | some a => a
                   | none => cfg.dialogEl) }
    let s3 :=
      if cfg.modeless = false then
        let nm : Nat → Bool := fun i =>
          decide (i < s2.nNodes) && !(s2.nodes i).roleDialog &&
            !((s2.nodes i).tabindexAttr == some (-1))
        { s2 with overflowHidden := true
                  nonModalNodes := nm
                  nodes := fun i =>
                    if nm i = true ∧ (s2.nodes i).inModal = false then
                      { s2.nodes i with prevTabindex := (s2.nodes i).tabindexAttr
                                        tabindexAttr := some (-1) }
                    else s2.nodes i }
      else s2
    ({ s3 with listening := true }, [])

/-- `dialog.close` from the build variant, with the deferred restore applied
as the continuation it schedules: no-op when `aria-hidden` is present;
otherwise set `aria-hidden`, and when modal clear `overflow:hidden` and for
every node of the captured `_nonModalNodes` list either write back the saved
`_prevTabindex` (when that saved string is truthy) or remove the `tabindex`
attribute; then focus `_lastFocusedElement`, clear it and unregister the
listeners.  No event is dispatched. -/
def buildClose (cfg : BuildCfg) (s : BuildState) : BuildState × List DEv :=
  if s.ariaHidden = true then (s, [])
  else
    let s1 := { s with ariaHidden := true }
    let s2 :=
      if cfg.modeless = false then
        { s1 with overflowHidden := false
                  nodes := fun i =>
                    if s1.nonModalNodes i = true then
                      (match (s1.nodes i).prevTabindex with
                       | some v => { s1.nodes i with tabindexAttr := some v
                                                     prevTabindex := none }
                       | none => { s1.nodes i with tabindexAttr := none })
                    else s1.nodes i }
      else s1
    let restored : Nat :=
      match s2.lastFocused with
      | some p => p
      | none => s2.activeElement
    let s3 := { s2 with activeElement := restored, lastFocused := none }
    ({ s3 with listening := false }, [])

/-- `keydownHandler` from the build variant: on Escape dispatch a
`dialog-closed` custom event (no payload, non-bubbling) and then call
`dialog.close()`; every other key is ignored. -/
def keydownHandler (cfg : BuildCfg) (which : Nat) (s : BuildState) :
    BuildState × List DEv :=
  if which = 27 then
    let r := buildClose cfg s
    (r.1, { name := "dialog-closed", bubbles := false, detail := none } :: r.2)
  else (s, [])

/-- `clickHandler` from the build variant: for a modal dialog, walk the
ancestor chain from the mousedown target; when the walk did not reach the
dialog, cancel the event (`preventDefault` + `stopPropagation`).  The
dialog is never closed here.  The returned flag records whether the event
was cancelled. -/
def clickHandler (cfg : BuildCfg) (target : List Nat) (s : BuildState) :
    BuildState × Bool :=
  if cfg.modeless then (s, false)
  else
    let el := climb cfg.dlgPath target
    if el ≠ cfg.dlgPath then (s, true) else (s, false)

/-- Delivery of a document-level mousedown: `clickHandler` runs only while
the listeners registered by `show` are in place. -/
def buildMousedown (cfg : BuildCfg) (target : List Nat) (s : BuildState) :
    BuildState × Bool :=
  if s.listening then clickHandler cfg target s else (s, false)

/-- Delivery of a document-level keydown. -/
def buildKeydown (cfg : BuildCfg) (which : Nat) (s : BuildState) :
    BuildState × List DEv :=
  if s.listening then keydownHandler cfg which s else (s, [])

end BuildDialog

/-! Concrete documents used to evaluate the dialog code at specific inputs. -/

/-- A modal inert-variant dialog (no `modeless`, no `no-esc`), dialog root at
body-child index 0, no autofocus descendant. -/
def inertCexCfg : Dialog.DialogCfg :=
  { attrs := { modeless := false, noEsc := false }, dialogEl := 9,
    dlgPath := [0], autofocusEl := none }

/-- A closed document with two body children in which sibling 1 is already
inert before the dialog ever opens. -/
def inertCexDoc : Dialog.DialogDoc :=
  { nSiblings := 2, rootIdx := 0, siblingInert := fun i => i == 1,
    overflowHidden := false, activeElement := 5, listening := false,
    dialogOpen := false, previousActiveElement := none }

/-- A modal inert-variant dialog whose element carries the documented
`no-esc` attribute. -/
def noEscCfg : Dialog.DialogCfg :=
  { attrs := { modeless := false, noEsc := true }, dialogEl := 7,
    dlgPath := [0], autofocusEl := none }

/-- A closed document for the `no-esc` scenario. -/
def noEscDoc : Dialog.DialogDoc :=
  { nSiblings := 2, rootIdx := 0, siblingInert := fun _ => false,
    overflowHidden := false, activeElement := 5, listening := false,
    dialogOpen := false, previousActiveElement := none }

/-- A modal build-variant dialog at path `[1]`. -/
def pointerCexCfg : BuildDialog.BuildCfg :=
  { modeless := false, dialogEl := 2, dlgPath := [1], autofocusEl := none }

/-- An open build-variant dialog state (listeners registered). -/
def pointerCexState : BuildDialog.BuildState :=
  { nNodes := 1,
    nodes := fun _ =>
      { inModal := false, roleDialog := false, tabindexAttr := none, prevTabindex := none },
    nonModalNodes := fun _ => false, ariaHidden := false, overflowHidden := true,
    activeElement := 0, lastFocused := some 4, listening := true }

/-- A modal inert-variant dialog used for the notification counterexample. -/
def notifCexCfg : Dialog.DialogCfg :=
  { attrs := { modeless := false, noEsc := false }, dialogEl := 4,
    dlgPath := [0], autofocusEl := none }

/-- A closed document for the notification counterexample. -/
def notifCexDoc : Dialog.DialogDoc :=
  { nSiblings := 1, rootIdx := 0, siblingInert := fun _ => false,
    overflowHidden := false, activeElement := 3, listening := false,
    dialogOpen := false, previousActiveElement := none }

/-- A modal build-variant dialog used for the notification counterexample. -/
def notifCexBCfg : BuildDialog.BuildCfg :=
  { modeless := false, dialogEl := 2, dlgPath := [0], autofocusEl := none }

/-- An open build-variant dialog state whose close succeeds. -/
def notifCexBState : BuildDialog.BuildState :=
  { nNodes := 1,
    nodes := fun _ =>
      { inModal := false, roleDialog := false, tabindexAttr := some (-1), prevTabindex := none },
    nonModalNodes := fun _ => false, ariaHidden := false, overflowHidden := true,
    activeElement := 0, lastFocused := some 6, listening := true }

/-- Configuration for the restoration witness, inert variant. -/
def inertWitCfg : Dialog.DialogCfg :=
  { attrs := { modeless := false, noEsc := false }, dialogEl := 8,
    dlgPath := [0], autofocusEl := some 6 }

/-- Closed three-child document for the restoration witness: sibling 2 is
already inert, sibling 1 is interactive. -/
def inertWitDoc : Dialog.DialogDoc :=
  { nSiblings := 3, rootIdx := 0, siblingInert := fun i => i == 2,
    overflowHidden := false, activeElement := 7, listening := false,
    dialogOpen := false, previousActiveElement := none }

/-- Configuration for the restoration witness, build variant. -/
def buildWitCfg : BuildDialog.BuildCfg :=
  { modeless := false, dialogEl := 5, dlgPath := [0], autofocusEl := none }

/-- Closed build-variant document for the restoration witness: node 0 lives
inside the modal, node 1 is outside with an explicit `tabindex="0"`, node 2
is outside with `tabindex="-1"`. -/
def buildWitState : BuildDialog.BuildState :=
  { nNodes := 3,
    nodes := fun i =>
      if i = 0 then
        { inModal := true, roleDialog := false, tabindexAttr := none, prevTabindex := none }
      else if i = 1 then
        { inModal := false, roleDialog := false, tabindexAttr := some 0, prevTabindex := none }
      else
        { inModal := false, roleDialog := false, tabindexAttr := some (-1), prevTabindex := none },
    nonModalNodes := fun _ => false, ariaHidden := true, overflowHidden := false,
    activeElement := 7, lastFocused := none, listening := false }

/-- A closed inert-variant document for the focus-restoration witness. -/
def focusWitDoc : Dialog.DialogDoc :=
  { nSiblings := 2, rootIdx := 1, siblingInert := fun _ => false,
    overflowHidden := false, activeElement := 11, listening := false,
    dialogOpen := false, previousActiveElement := none }

/-- An open-and-listening inert-variant document (as left by `open`). -/
def openListeningDoc : Dialog.DialogDoc :=
  { nSiblings := 2, rootIdx := 0, siblingInert := fun i => i == 1,
    overflowHidden := true, activeElement := 9, listening := true,
    dialogOpen := true, previousActiveElement := some 5 }

namespace Accordion

theorem prevIndex_lt (opts : Options) (n cur : Nat) (h : cur < n) :
    prevIndex opts (n - 1) cur < n := by
  unfold prevIndex
  split <;> split <;> omega

theorem nextIndex_lt (opts : Options) (n cur : Nat) (h : cur < n) :
    nextIndex opts (n - 1) cur < n := by
  unfold nextIndex
  split <;> split <;> omega

theorem updateFocusState_focusInv (n : Nat) (s : AccState)
    (hlt : s.currentTabIndex < n)
    (hch : ∀ i, i < n → (s.tabstop i = true ↔ i = s.currentTab)) :
    FocusInv n (updateFocusState s).1 := by
  refine ⟨rfl, hlt, ?_⟩
  intro i hi
  show setFn (setFn s.tabstop s.currentTab false) s.currentTabIndex true i = true ↔
    i = s.currentTabIndex
  by_cases h1 : i = s.currentTabIndex
  · simp [setFn, h1]
  · simp only [setFn, if_neg h1]
    by_cases h2 : i = s.currentTab
    · rw [if_pos h2]
      constructor
      · intro hft
        exact absurd hft (by simp)
      · intro hh
        exact absurd hh h1
    · simp only [if_neg h2]
      constructor
      · intro ht
        exact absurd ((hch i hi).mp ht) h2
      · intro h
        exact absurd h h1

theorem toggleTabPanel_focus_fields (opts : Options) (n : Nat) (s : AccState) (t : Nat) :
    (toggleTabPanel opts n s t).1.tabstop = s.tabstop ∧
    (toggleTabPanel opts n s t).1.currentTab = s.currentTab ∧
    (toggleTabPanel opts n s t).1.currentTabIndex = s.currentTabIndex := by
  unfold toggleTabPanel toggleCollapseBranch
  split
  · split <;> exact ⟨rfl, rfl, rfl⟩
  · exact ⟨rfl, rfl, rfl⟩

theorem toggleTabPanel_focusInv (opts : Options) (n : Nat) (s : AccState) (t : Nat)
    (h : FocusInv n s) : FocusInv n (toggleTabPanel opts n s t).1 := by
  obtain ⟨h1, h2, h3⟩ := toggleTabPanel_focus_fields opts n s t
  refine ⟨?_, ?_, ?_⟩
  · rw [h2, h3]
    exact h.1
  · rw [h3]
    exact h.2.1
  · intro i hi
    rw [h1, h3]
    exact h.2.2 i hi

theorem accStep_focusInv (opts : Options) (n : Nat) (s : AccState) (c : AccCmd)
    (hc : cmdOk n c = true) (h : FocusInv n s) :
    FocusInv n (accStep opts n s c).1 := by
  obtain ⟨hct, hlt, hch⟩ := h
  have hch' : ∀ i, i < n → (s.tabstop i = true ↔ i = s.currentTab) := by
    intro i hi
    rw [hct]
    exact hch i hi
  cases c with
  | left => exact updateFocusState_focusInv n _ (prevIndex_lt opts n _ hlt) hch'
  | up => exact updateFocusState_focusInv n _ (prevIndex_lt opts n _ hlt) hch'
  | right => exact updateFocusState_focusInv n _ (nextIndex_lt opts n _ hlt) hch'
  | down => exact updateFocusState_focusInv n _ (nextIndex_lt opts n _ hlt) hch'
  | endKey =>
      exact updateFocusState_focusInv n _ (by show n - 1 < n; omega) hch'
  | home =>
      exact updateFocusState_focusInv n _ (by show 0 < n; omega) hch'
  | enter => exact toggleTabPanel_focusInv opts n s s.currentTab ⟨hct, hlt, hch⟩
  | space => exact toggleTabPanel_focusInv opts n s s.currentTab ⟨hct, hlt, hch⟩
  | mouse i =>
      have hi : i < n := of_decide_eq_true hc
      have hupd : FocusInv n (updateFocusState { s with currentTabIndex := i }).1 :=
        updateFocusState_focusInv n _ hi hch'
      exact toggleTabPanel_focusInv opts n _ _ hupd

theorem foldl_steps_inv (opts : Options) (n : Nat) (P : AccState → Prop)
    (hstep : ∀ s c, cmdOk n c = true → P s → P (accStep opts n s c).1) :
    ∀ (cmds : List AccCmd) (s : AccState), cmds.all (cmdOk n) = true →
      P s → P (cmds.foldl (fun s c => (accStep opts n s c).1) s) := by
  intro cmds
  induction cmds with
  | nil => intro s _ h; exact h
  | cons c cs ih =>
      intro s hall h
      rw [List.all_cons, Bool.and_eq_true] at hall
      exact ih _ hall.2 (hstep s c hall.1 h)

theorem accInit_focusInv (opts : Options) (n : Nat) (hn : 0 < n) :
    FocusInv n (accInit opts) := by
  refine ⟨rfl, hn, ?_⟩
  intro i _
  show (i == 0) = true ↔ i = 0
  simp

theorem accRun_focusInv (opts : Options) (n : Nat) (cmds : List AccCmd)
    (hn : 0 < n) (hall : cmds.all (cmdOk n) = true) :
    FocusInv n (accRun opts n cmds) :=
  foldl_steps_inv opts n (FocusInv n)
    (fun s c hc h => accStep_focusInv opts n s c hc h)
    cmds (accInit opts) hall (accInit_focusInv opts n hn)

theorem firstExpanded_some (n : Nat) (s : AccState) (u : Nat)
    (h : firstExpanded n s = some u) : u < n ∧ s.expandedA u = true := by
  unfold firstExpanded at h
  exact ⟨List.mem_range.mp (List.mem_of_find?_eq_some h), List.find?_some h⟩

theorem firstExpanded_none (n : Nat) (s : AccState)
    (h : firstExpanded n s = none) : ∀ i, i < n → s.expandedA i = false := by
  intro i hi
  unfold firstExpanded at h
  have := List.find?_eq_none.mp h i (List.mem_range.mpr hi)
  simpa using this

theorem toggleTabPanel_eq_open_some (opts : Options) (n : Nat) (s : AccState)
    (t u : Nat) (hexp : s.expandedA t = false) (hm : opts.multiple = false)
    (hfe : firstExpanded n s = some u) :
    toggleTabPanel opts n s t =
      ({ s with expandedA := setFn (setFn s.expandedA u false) t true
                hiddenA := setFn (setFn s.hiddenA u true) t false },
       [Act.setExpanded u false, Act.setHidden u true,
        Act.dispatch (AccEvent.collapsed u),
        Act.setExpanded t true, Act.setHidden t false,
        Act.dispatch (AccEvent.expanded t)]) := by
  unfold toggleTabPanel toggleCollapseBranch
  rw [if_pos hexp, hm, if_pos rfl, hfe]
  rfl

theorem toggleTabPanel_eq_open_none (opts : Options) (n : Nat) (s : AccState)
    (t : Nat) (hexp : s.expandedA t = false) (hm : opts.multiple = false)
    (hfe : firstExpanded n s = none) :
    toggleTabPanel opts n s t =
      ({ s with expandedA := setFn s.expandedA t true
                hiddenA := setFn s.hiddenA t false },
       [Act.setExpanded t true, Act.setHidden t false,
        Act.dispatch (AccEvent.expanded t)]) := by
  unfold toggleTabPanel
  rw [if_pos hexp, hm, if_pos rfl, hfe]

theorem toggleTabPanel_eq_collapse (opts : Options) (n : Nat) (s : AccState)
    (t : Nat) (hexp : ¬ s.expandedA t = false) :
    toggleTabPanel opts n s t =
      ({ s with expandedA := setFn s.expandedA t false
                hiddenA := setFn s.hiddenA t true },
       [Act.setExpanded t false, Act.setHidden t true,
        Act.dispatch (AccEvent.collapsed t)]) := by
  unfold toggleTabPanel toggleCollapseBranch
  rw [if_neg hexp]

theorem toggleTabPanel_panelInv (opts : Options) (n : Nat) (s : AccState) (t : Nat)
    (hm : opts.multiple = false) (ht : t < n)
    (hsync : Sync n s) (hamo : AtMostOnePanel n s) :
    Sync n (toggleTabPanel opts n s t).1 ∧
    AtMostOnePanel n (toggleTabPanel opts n s t).1 := by
  by_cases hexp : s.expandedA t = false
  · cases hfe : firstExpanded n s with
    | some u =>
        obtain ⟨hu, hue⟩ := firstExpanded_some n s u hfe
        have htu : t ≠ u := by
          intro h
          rw [h, hue] at hexp
          exact absurd hexp (by simp)
        rw [toggleTabPanel_eq_open_some opts n s t u hexp hm hfe]
        constructor
        · intro i hi
          show setFn (setFn s.hiddenA u true) t false i =
            !(setFn (setFn s.expandedA u false) t true i)
          by_cases h1 : i = t
          · simp [setFn, h1]
          · by_cases h2 : i = u
            · simp [setFn, h1, h2]
            · simp only [setFn, if_neg h1, if_neg h2]
              exact hsync i hi
        · intro i hi j hj hfi hfj
          have hchar : ∀ k, k < n →
              setFn (setFn s.hiddenA u true) t false k = false → k = t := by
            intro k hk hfk
            by_cases h1 : k = t
            · exact h1
            · by_cases h2 : k = u
              · subst h2
                simp [setFn, h1] at hfk
              · simp only [setFn, if_neg h1, if_neg h2] at hfk
                have hsu : s.hiddenA u = false := by rw [hsync u hu, hue]; rfl
                exact absurd (hamo k hk u hu hfk hsu) h2
          rw [hchar i hi hfi, hchar j hj hfj]
    | none =>
        have hall := firstExpanded_none n s hfe
        rw [toggleTabPanel_eq_open_none opts n s t hexp hm hfe]
        constructor
        · intro i hi
          show setFn s.hiddenA t false i = !(setFn s.expandedA t true i)
          by_cases h1 : i = t
          · simp [setFn, h1]
          · simp only [setFn, if_neg h1]
            exact hsync i hi
        · intro i hi j hj hfi hfj
          have hchar : ∀ k, k < n → setFn s.hiddenA t false k = false → k = t := by
            intro k hk hfk
            by_cases h1 : k = t
            · exact h1
            · simp only [setFn, if_neg h1] at hfk
              rw [hsync k hk, hall k hk] at hfk
              exact absurd hfk (by simp)
          rw [hchar i hi hfi, hchar j hj hfj]
  · rw [toggleTabPanel_eq_collapse opts n s t hexp]
    constructor
    · intro i hi
      show setFn s.hiddenA t true i = !(setFn s.expandedA t false i)
      by_cases h1 : i = t
      · simp [setFn, h1]
      · simp only [setFn, if_neg h1]
        exact hsync i hi
    · intro i hi j hj hfi hfj
      have hne : ∀ k, setFn s.hiddenA t true k = false → k ≠ t ∧ s.hiddenA k = false := by
        intro k hfk
        by_cases h1 : k = t
        · subst h1
          simp [setFn] at hfk
        · simp only [setFn, if_neg h1] at hfk
          exact ⟨h1, hfk⟩
      exact hamo i hi j hj (hne i hfi).2 (hne j hfj).2

theorem accStep_panelInv (opts : Options) (n : Nat) (s : AccState) (c : AccCmd)
    (hm : opts.multiple = false) (hc : cmdOk n c = true)
    (hf : FocusInv n s) (hsync : Sync n s) (hamo : AtMostOnePanel n s) :
    Sync n (accStep opts n s c).1 ∧ AtMostOnePanel n (accStep opts n s c).1 := by
  cases c with
  | left => exact ⟨hsync, hamo⟩
  | up => exact ⟨hsync, hamo⟩
  | right => exact ⟨hsync, hamo⟩
  | down => exact ⟨hsync, hamo⟩
  | endKey => exact ⟨hsync, hamo⟩
  | home => exact ⟨hsync, hamo⟩
  | enter =>
      have ht : s.currentTab < n := by rw [hf.1]; exact hf.2.1
      exact toggleTabPanel_panelInv opts n s s.currentTab hm ht hsync hamo
  | space =>
      have ht : s.currentTab < n := by rw [hf.1]; exact hf.2.1
      exact toggleTabPanel_panelInv opts n s s.currentTab hm ht hsync hamo
  | mouse i =>
      have hi : i < n := of_decide_eq_true hc
      exact toggleTabPanel_panelInv opts n
        (updateFocusState { s with currentTabIndex := i }).1 i hm hi hsync hamo

theorem accInit_sync (opts : Options) (n : Nat) : Sync n (accInit opts) :=
  fun _ _ => rfl

theorem accInit_amo (n : Nat) (w : Bool) :
    AtMostOnePanel n (accInit ⟨false, false, w⟩) := by
  intro i _ j _ hfi _
  exact absurd hfi (by simp [accInit])

/-- C2 counterexample: an accordion whose container lacks the `multiple`
attribute but carries `expanded` starts with every panel expanded; with 3
heading/panel pairs, a single activation (enter on heading 0) collapses only
panel 0 and leaves panels 1 and 2 both expanded, so more than one panel is
expanded after the activation completes. -/
theorem single_open_cex :
    ¬ AtMostOnePanel 3 (accRun ⟨true, false, false⟩ 3 [AccCmd.enter]) := by
  decide

/-- C2 (amended): for every accordion whose container lacks both the
`multiple` and the `expanded` attributes (so all panels start collapsed),
after every sequence of interactions (activations included) at most one
panel is in the expanded state. -/
theorem single_open_invariant (w : Bool) (n : Nat) (hn : 0 < n)
    (cmds : List AccCmd) (hall : cmds.all (cmdOk n) = true) :
    AtMostOnePanel n (accRun ⟨false, false, w⟩ n cmds) := by
  have h := foldl_steps_inv ⟨false, false, w⟩ n
    (fun s => FocusInv n s ∧ Sync n s ∧ AtMostOnePanel n s)
    (fun s c hc hP =>
      ⟨accStep_focusInv _ n s c hc hP.1,
       (accStep_panelInv _ n s c rfl hc hP.1 hP.2.1 hP.2.2).1,
       (accStep_panelInv _ n s c rfl hc hP.1 hP.2.1 hP.2.2).2⟩)
    cmds (accInit ⟨false, false, w⟩) hall
    ⟨accInit_focusInv _ n hn, accInit_sync _ n, accInit_amo n w⟩
  exact h.2.2

theorem single_open_invariant_witness :
    ((0 : Nat) < 3 ∧
      ([AccCmd.enter, AccCmd.mouse 1, AccCmd.space].all (cmdOk 3) = true)) ∧
    AtMostOnePanel 3
      (accRun ⟨false, false, false⟩ 3 [AccCmd.enter, AccCmd.mouse 1, AccCmd.space]) :=
  ⟨⟨by decide, by decide⟩,
   single_open_invariant false 3 (by decide) [AccCmd.enter, AccCmd.mouse 1, AccCmd.space]
     (by decide)⟩

/-- C4: with `wrap-focus`, a previous command (left/up) at index 0 moves
`currentTabIndex` to N−1 and a next command (right/down) at index N−1 moves
it to 0; without `wrap-focus`, previous at index 0 stays at 0 and next at
index N−1 stays at N−1. -/
theorem wrap_focus_boundaries (n : Nat) (hn : 0 < n) (e m : Bool) (s t : AccState)
    (h0 : s.currentTabIndex = 0) (hl : t.currentTabIndex = n - 1) :
    ((accStep ⟨e, m, true⟩ n s AccCmd.left).1.currentTabIndex = n - 1 ∧
     (accStep ⟨e, m, true⟩ n s AccCmd.up).1.currentTabIndex = n - 1 ∧
     (accStep ⟨e, m, true⟩ n t AccCmd.right).1.currentTabIndex = 0 ∧
     (accStep ⟨e, m, true⟩ n t AccCmd.down).1.currentTabIndex = 0) ∧
    ((accStep ⟨e, m, false⟩ n s AccCmd.left).1.currentTabIndex = 0 ∧
     (accStep ⟨e, m, false⟩ n s AccCmd.up).1.currentTabIndex = 0 ∧
     (accStep ⟨e, m, false⟩ n t AccCmd.right).1.currentTabIndex = n - 1 ∧
     (accStep ⟨e, m, false⟩ n t AccCmd.down).1.currentTabIndex = n - 1) := by
  refine ⟨⟨?_, ?_, ?_, ?_⟩, ?_, ?_, ?_, ?_⟩
  · show prevIndex ⟨e, m, true⟩ (n - 1) s.currentTabIndex = n - 1
    rw [h0]
    simp [prevIndex]
  · show prevIndex ⟨e, m, true⟩ (n - 1) s.currentTabIndex = n - 1
    rw [h0]
    simp [prevIndex]
  · show nextIndex ⟨e, m, true⟩ (n - 1) t.currentTabIndex = 0
    rw [hl]
    simp [nextIndex]
  · show nextIndex ⟨e, m, true⟩ (n - 1) t.currentTabIndex = 0
    rw [hl]
    simp [nextIndex]
  · show prevIndex ⟨e, m, false⟩ (n - 1) s.currentTabIndex = 0
    rw [h0]
    simp [prevIndex]
  · show prevIndex ⟨e, m, false⟩ (n - 1) s.currentTabIndex = 0
    rw [h0]
    simp [prevIndex]
  · show nextIndex ⟨e, m, false⟩ (n - 1) t.currentTabIndex = n - 1
    rw [hl]
    simp [nextIndex]
  · show nextIndex ⟨e, m, false⟩ (n - 1) t.currentTabIndex = n - 1
    rw [hl]
    simp [nextIndex]

theorem wrap_focus_boundaries_witness :
    ((0 : Nat) < 3 ∧
      (accInit ⟨false, false, false⟩).currentTabIndex = 0 ∧
      ({ accInit ⟨false, false, false⟩ with currentTabIndex := 2 } : AccState).currentTabIndex
        = 3 - 1) ∧
    (((accStep ⟨false, false, true⟩ 3 (accInit ⟨false, false, false⟩)
        AccCmd.left).1.currentTabIndex = 3 - 1 ∧
      (accStep ⟨false, false, true⟩ 3 (accInit ⟨false, false, false⟩)
        AccCmd.up).1.currentTabIndex = 3 - 1 ∧
      (accStep ⟨false, false, true⟩ 3
        { accInit ⟨false, false, false⟩ with currentTabIndex := 2 }
        AccCmd.right).1.currentTabIndex = 0 ∧
      (accStep ⟨false, false, true⟩ 3
        { accInit ⟨false, false, false⟩ with currentTabIndex := 2 }
        AccCmd.down).1.currentTabIndex = 0) ∧
     ((accStep ⟨false, false, false⟩ 3 (accInit ⟨false, false, false⟩)
        AccCmd.left).1.currentTabIndex = 0 ∧
      (accStep ⟨false, false, false⟩ 3 (accInit ⟨false, false, false⟩)
        AccCmd.up).1.currentTabIndex = 0 ∧
      (accStep ⟨false, false, false⟩ 3
        { accInit ⟨false, false, false⟩ with currentTabIndex := 2 }
        AccCmd.right).1.currentTabIndex = 3 - 1 ∧
      (accStep ⟨false, false, false⟩ 3
        { accInit ⟨false, false, false⟩ with currentTabIndex := 2 }
        AccCmd.down).1.currentTabIndex = 3 - 1)) :=
  ⟨⟨by decide, rfl, rfl⟩,
   wrap_focus_boundaries 3 (by decide) false false (accInit ⟨false, false, false⟩)
     { accInit ⟨false, false, false⟩ with currentTabIndex := 2 } rfl rfl⟩

/-- C5: after every sequence of interactions, the heading at
`currentTabIndex` is in range and a heading carries the tab stop
(`tabindex="0"`) exactly when it is the one at `currentTabIndex`, so exactly
one heading is keyboard-reachable at any time between interactions. -/
theorem roving_tabstop_unique (opts : Options) (n : Nat) (hn : 0 < n)
    (cmds : List AccCmd) (hall : cmds.all (cmdOk n) = true) :
    (accRun opts n cmds).currentTabIndex < n ∧
    ∀ i, i < n →
      ((accRun opts n cmds).tabstop i = true ↔
        i = (accRun opts n cmds).currentTabIndex) := by
  have h := accRun_focusInv opts n cmds hn hall
  exact ⟨h.2.1, h.2.2⟩

theorem roving_tabstop_unique_witness :
    ((0 : Nat) < 3 ∧
      ([AccCmd.right, AccCmd.enter, AccCmd.mouse 1, AccCmd.endKey].all (cmdOk 3) = true)) ∧
    ((accRun ⟨false, false, true⟩ 3
        [AccCmd.right, AccCmd.enter, AccCmd.mouse 1, AccCmd.endKey]).currentTabIndex < 3 ∧
     ∀ i : Nat, i < 3 →
       ((accRun ⟨false, false, true⟩ 3
          [AccCmd.right, AccCmd.enter, AccCmd.mouse 1, AccCmd.endKey]).tabstop i = true ↔
         i = (accRun ⟨false, false, true⟩ 3
          [AccCmd.right, AccCmd.enter, AccCmd.mouse 1, AccCmd.endKey]).currentTabIndex)) :=
  ⟨⟨by decide, by decide⟩,
   roving_tabstop_unique ⟨false, false, true⟩ 3 (by decide)
     [AccCmd.right, AccCmd.enter, AccCmd.mouse 1, AccCmd.endKey] (by decide)⟩

/-- C9: on a roving-focus index change, `updateFocusState` first clears the
old heading's selected flag and tab stop and dispatches `accordion-blurred`,
and only then sets the new heading's selected flag and tab stop, calls
`focus()` and dispatches `accordion-focused`; in the emitted trace every
focused dispatch comes strictly after every blurred dispatch. -/
theorem blur_then_focus_order (s : AccState) :
    (updateFocusState s).2 =
      [Act.setSelected s.currentTab false, Act.setTabindexZero s.currentTab false,
       Act.dispatch (AccEvent.blurred s.currentTab),
       Act.setSelected s.currentTabIndex true,
       Act.setTabindexZero s.currentTabIndex true,
       Act.focusEl s.currentTabIndex,
       Act.dispatch (AccEvent.focused s.currentTabIndex)] ∧
    ∀ (i j a b : Nat),
      ((updateFocusState s).2)[i]? = some (Act.dispatch (AccEvent.focused a)) →
      ((updateFocusState s).2)[j]? = some (Act.dispatch (AccEvent.blurred b)) → j < i := by
  refine ⟨rfl, ?_⟩
  intro i j a b hi hj
  rcases i with _ | _ | _ | _ | _ | _ | _ | m <;>
    rcases j with _ | _ | _ | _ | _ | _ | _ | m2 <;>
    simp_all [updateFocusState]

theorem blur_then_focus_order_witness :
    (updateFocusState (accInit ⟨false, false, false⟩)).2 =
      [Act.setSelected 0 false, Act.setTabindexZero 0 false,
       Act.dispatch (AccEvent.blurred 0), Act.setSelected 0 true,
       Act.setTabindexZero 0 true, Act.focusEl 0,
       Act.dispatch (AccEvent.focused 0)] ∧ (2 : Nat) < 6 :=
  ⟨(blur_then_focus_order (accInit ⟨false, false, false⟩)).1,
   (blur_then_focus_order (accInit ⟨false, false, false⟩)).2 6 2 0 0
     (by decide) (by decide)⟩

end Accordion

theorem climb_eq_iff (dlg : List Nat) : ∀ t : List Nat, climb dlg t = dlg ↔ dlg <:+ t := by
  intro t
  induction t with
  | nil =>
      show ([] : List Nat) = dlg ↔ dlg <:+ []
      rw [List.suffix_nil]
      exact eq_comm
  | cons i p ih =>
      show (if i :: p = dlg then i :: p else climb dlg p) = dlg ↔ dlg <:+ i :: p
      by_cases h : i :: p = dlg
      · rw [if_pos h]
        constructor
        · intro _
          rw [← h]
        · intro _
          exact h
      · rw [if_neg h, List.suffix_cons_iff]
        constructor
        · intro hc
          exact Or.inr (ih.mp hc)
        · intro hc
          cases hc with
          | inl he => exact absurd he.symm h
          | inr hs => exact ih.mpr hs

namespace Dialog

theorem dialogOpenFn_modal_eq (cfg : DialogCfg) (s : DialogDoc)
    (hm : cfg.attrs.modeless = false) (hclosed : s.dialogOpen = false) :
    dialogOpenFn cfg s =
      ({ s with previousActiveElement := some s.activeElement
                overflowHidden := true
                siblingInert := fun i =>
                  if i < s.nSiblings ∧ i ≠ s.rootIdx then true else s.siblingInert i
                dialogOpen := true
                listening := true
                activeElement :=
                  (match cfg.autofocusEl with
                   | none => cfg.dialogEl
                   | some a => a) },
       [{ name := "modal-opened", bubbles := false, detail := some cfg.dialogEl }]) := by
  unfold dialogOpenFn mkOptions
  rw [if_neg (by simp [hclosed])]
  dsimp only
  rw [if_pos hm]

theorem dialogOpenFn_modeless_eq (cfg : DialogCfg) (s : DialogDoc)
    (hm : cfg.attrs.modeless = true) (hclosed : s.dialogOpen = false) :
    dialogOpenFn cfg s =
      ({ s with previousActiveElement := some s.activeElement
                dialogOpen := true
                listening := true
                activeElement :=
                  (match cfg.autofocusEl with
                   | none => cfg.dialogEl
                   | some a => a) },
       [{ name := "modal-opened", bubbles := false, detail := some cfg.dialogEl }]) := by
  unfold dialogOpenFn mkOptions
  rw [if_neg (by simp [hclosed])]
  dsimp only
  rw [if_neg (by simp [hm])]

theorem dialogCloseFn_modal_eq (cfg : DialogCfg) (s : DialogDoc)
    (hm : cfg.attrs.modeless = false) (hopen : s.dialogOpen = true) :
    dialogCloseFn cfg s =
      ({ s with overflowHidden := false
                siblingInert := fun i =>
                  if i < s.nSiblings ∧ i ≠ s.rootIdx then false else s.siblingInert i
                dialogOpen := false
                listening := false
                activeElement :=
                  (match s.previousActiveElement with
                   | some p => p
                   | none => s.activeElement)
                previousActiveElement := none },
       [{ name := "modal-closed", bubbles := false, detail := some cfg.dialogEl }]) := by
  unfold dialogCloseFn mkOptions
  rw [if_neg (by simp [hopen])]
  dsimp only
  rw [if_pos hm]

theorem dialogCloseFn_modeless_eq (cfg : DialogCfg) (s : DialogDoc)
    (hm : cfg.attrs.modeless = true) (hopen : s.dialogOpen = true) :
    dialogCloseFn cfg s =
      ({ s with dialogOpen := false
                listening := false
                activeElement :=
                  (match s.previousActiveElement with
                   | some p => p
                   | none => s.activeElement)
                previousActiveElement := none },
       [{ name := "modal-closed", bubbles := false, detail := some cfg.dialogEl }]) := by
  unfold dialogCloseFn mkOptions
  rw [if_neg (by simp [hopen])]
  dsimp only
  rw [if_neg (by simp [hm])]

theorem dialogCloseFn_closes (cfg : DialogCfg) (s : DialogDoc)
    (hopen : s.dialogOpen = true) : (dialogCloseFn cfg s).1.dialogOpen = false := by
  by_cases hm : cfg.attrs.modeless = false
  · rw [dialogCloseFn_modal_eq cfg s hm hopen]
  · have hm2 : cfg.attrs.modeless = true := by
      revert hm
      cases cfg.attrs.modeless <;> simp
    rw [dialogCloseFn_modeless_eq cfg s hm2 hopen]

theorem dialogOpenFn_events (cfg : DialogCfg) (s : DialogDoc)
    (hclosed : s.dialogOpen = false) :
    (dialogOpenFn cfg s).2 =
      [{ name := "modal-opened", bubbles := false, detail := some cfg.dialogEl }] := by
  unfold dialogOpenFn mkOptions
  rw [if_neg (by simp [hclosed])]

theorem dialogCloseFn_events (cfg : DialogCfg) (s : DialogDoc)
    (hopen : s.dialogOpen = true) :
    (dialogCloseFn cfg s).2 =
      [{ name := "modal-closed", bubbles := false, detail := some cfg.dialogEl }] := by
  unfold dialogCloseFn mkOptions
  rw [if_neg (by simp [hopen])]

theorem inert_while_open (cfg : DialogCfg) (s : DialogDoc)
    (hm : cfg.attrs.modeless = false) (hclosed : s.dialogOpen = false)
    (i : Nat) (hi : i < s.nSiblings) (hne : i ≠ s.rootIdx) :
    (dialogOpenFn cfg s).1.siblingInert i = true := by
  rw [dialogOpenFn_modal_eq cfg s hm hclosed]
  dsimp only
  rw [if_pos ⟨hi, hne⟩]

theorem inert_cleared_on_close (cfg : DialogCfg) (s : DialogDoc)
    (hm : cfg.attrs.modeless = false) (hclosed : s.dialogOpen = false)
    (i : Nat) (hi : i < s.nSiblings) (hne : i ≠ s.rootIdx) :
    (dialogCloseFn cfg (dialogOpenFn cfg s).1).1.siblingInert i = false := by
  have ho := dialogOpenFn_modal_eq cfg s hm hclosed
  have hopen : (dialogOpenFn cfg s).1.dialogOpen = true := by rw [ho]
  rw [dialogCloseFn_modal_eq cfg _ hm hopen, ho]
  dsimp only
  rw [if_pos ⟨hi, hne⟩]

theorem inert_restored_if_interactive (cfg : DialogCfg) (s : DialogDoc)
    (hm : cfg.attrs.modeless = false) (hclosed : s.dialogOpen = false)
    (i : Nat) (hi : i < s.nSiblings) (hpre : s.siblingInert i = false) :
    (dialogCloseFn cfg (dialogOpenFn cfg s).1).1.siblingInert i = s.siblingInert i := by
  have ho := dialogOpenFn_modal_eq cfg s hm hclosed
  have hopen : (dialogOpenFn cfg s).1.dialogOpen = true := by rw [ho]
  rw [dialogCloseFn_modal_eq cfg _ hm hopen, ho]
  dsimp only
  by_cases hne : i = s.rootIdx
  · rw [if_neg (fun h => h.2 hne), if_neg (fun h => h.2 hne)]
  · rw [if_pos ⟨hi, hne⟩, hpre]

end Dialog

namespace BuildDialog

theorem buildShow_modal_eq (cfg : BuildCfg) (s : BuildState)
    (hm : cfg.modeless = false) (hcl : s.ariaHidden = true) :
    buildShow cfg s =
      ({ s with ariaHidden := false
                lastFocused := some s.activeElement
                activeElement :=
                  (match cfg.autofocusEl with
                   | some a => a
                   | none => cfg.dialogEl)
                overflowHidden := true
                nonModalNodes := fun i =>
                  decide (i < s.nNodes) && !(s.nodes i).roleDialog &&
                    !((s.nodes i).tabindexAttr == some (-1))
                nodes := fun i =>
                  if (decide (i < s.nNodes) && !(s.nodes i).roleDialog &&
                      !((s.nodes i).tabindexAttr == some (-1))) = true ∧
                      (s.nodes i).inModal = false then
                    { s.nodes i with prevTabindex := (s.nodes i).tabindexAttr
                                     tabindexAttr := some (-1) }
                  else s.nodes i
                listening := true }, []) := by
  unfold buildShow
  rw [if_neg (by simp [hcl])]
  dsimp only
  rw [if_pos hm]

theorem buildShow_modeless_eq (cfg : BuildCfg) (s : BuildState)
    (hm : cfg.modeless = true) (hcl : s.ariaHidden = true) :
    buildShow cfg s =
      ({ s with ariaHidden := false
                lastFocused := some s.activeElement
                activeElement :=
                  (match cfg.autofocusEl with
                   | some a => a
                   | none => cfg.dialogEl)
                listening := true }, []) := by
  unfold buildShow
  rw [if_neg (by simp [hcl])]
  dsimp only
  rw [if_neg (by simp [hm])]

theorem buildClose_modal_eq (cfg : BuildCfg) (s : BuildState)
    (hm : cfg.modeless = false) (hopen : s.ariaHidden = false) :
    buildClose cfg s =
      ({ s with ariaHidden := true
                overflowHidden := false
                nodes := fun i =>
                  if s.nonModalNodes i = true then
                    (match (s.nodes i).prevTabindex with
                     | some v => { s.nodes i with tabindexAttr := some v
                                                  prevTabindex := none }
                     | none => { s.nodes i with tabindexAttr := none })
                  else s.nodes i
                activeElement :=
                  (match s.lastFocused with
                   | some p => p
                   | none => s.activeElement)
                lastFocused := none
                listening := false }, []) := by
  unfold buildClose
  rw [if_neg (by simp [hopen])]
  dsimp only
  rw [if_pos hm]

theorem buildClose_modeless_eq (cfg : BuildCfg) (s : BuildState)
    (hm : cfg.modeless = true) (hopen : s.ariaHidden = false) :
    buildClose cfg s =
      ({ s with ariaHidden := true
                activeElement :=
                  (match s.lastFocused with
                   | some p => p
                   | none => s.activeElement)
                lastFocused := none
                listening := false }, []) := by
  unfold buildClose
  rw [if_neg (by simp [hopen])]
  dsimp only
  rw [if_neg (by simp [hm])]

theorem buildShow_trap (cfg : BuildCfg) (s : BuildState)
    (hm : cfg.modeless = false) (hcl : s.ariaHidden = true)
    (i : Nat) (hi : i < s.nNodes) (hin : (s.nodes i).inModal = false)
    (hrd : (s.nodes i).roleDialog = false) :
    ((buildShow cfg s).1.nodes i).tabindexAttr = some (-1) := by
  rw [buildShow_modal_eq cfg s hm hcl]
  dsimp only
  by_cases hattr : (s.nodes i).tabindexAttr = some (-1)
  · rw [if_neg (by simp [hattr])]
    exact hattr
  · rw [if_pos ⟨by simp [hi, hrd, hattr], hin⟩]

theorem buildClose_restores (cfg : BuildCfg) (s : BuildState)
    (hm : cfg.modeless = false) (hcl : s.ariaHidden = true)
    (i : Nat) (hi : i < s.nNodes) (hin : (s.nodes i).inModal = false) :
    ((buildClose cfg (buildShow cfg s).1).1.nodes i).tabindexAttr
      = (s.nodes i).tabindexAttr := by
  have hs := buildShow_modal_eq cfg s hm hcl
  have hsopen : (buildShow cfg s).1.ariaHidden = false := by rw [hs]
  rw [buildClose_modal_eq cfg _ hm hsopen, hs]
  dsimp only
  by_cases hrd : (s.nodes i).roleDialog = true
  · rw [if_neg (by simp [hrd]), if_neg (by simp [hrd])]
  · have hrd2 : (s.nodes i).roleDialog = false := by
      revert hrd
      cases (s.nodes i).roleDialog <;> simp
    by_cases hattr : (s.nodes i).tabindexAttr = some (-1)
    · rw [if_neg (by simp [hattr]), if_neg (by simp [hattr])]
    · rw [if_pos (by simp [hi, hrd2, hattr]),
        if_pos ⟨by simp [hi, hrd2, hattr], hin⟩]
      dsimp only
      cases hA : (s.nodes i).tabindexAttr with
      | some v => rfl
      | none => rfl

theorem buildShow_events (cfg : BuildCfg) (s : BuildState) :
    (buildShow cfg s).2 = [] := by
  unfold buildShow
  split
  · rfl
  · split <;> rfl

theorem buildClose_events (cfg : BuildCfg) (s : BuildState) :
    (buildClose cfg s).2 = [] := by
  unfold buildClose
  split
  · rfl
  · split <;> rfl

end BuildDialog

/-- C1 counterexample: in the inert variant, sibling 1 of `inertCexDoc` is
already inert before `open()`, yet after `open()` followed by `close()` its
inert flag is `false` instead of its pre-open value `true`: the interactive
state of an element that was already non-interactive before `open()` is not
restored. -/
theorem modal_inert_restoration_cex :
    inertCexDoc.siblingInert 1 = true ∧
    (Dialog.dialogCloseFn inertCexCfg
      (Dialog.dialogOpenFn inertCexCfg inertCexDoc).1).1.siblingInert 1 = false := by
  decide

/-- C1 (amended): while a modal dialog is open, interaction outside it is
disabled — the inert variant sets `inert` on every body child other than the
dialog root, and the build variant gives every body descendant outside the
modal that does not carry `role="dialog"` the value `tabindex="-1"`.  After
close, the build variant restores the `tabindex` attribute of every element
outside the modal exactly; the inert variant clears `inert` on every
non-root sibling, which restores exactly those siblings that were
interactive before `open()` but leaves a sibling that was already inert
before `open()` with `inert = false` rather than its pre-open state. -/
theorem modal_sibling_noninteractive_restore
    (cfg : Dialog.DialogCfg) (s : Dialog.DialogDoc)
    (hm : cfg.attrs.modeless = false) (hclosed : s.dialogOpen = false)
    (bcfg : BuildDialog.BuildCfg) (bs : BuildDialog.BuildState)
    (hbm : bcfg.modeless = false) (hbclosed : bs.ariaHidden = true) :
    (∀ i : Nat, i < s.nSiblings → i ≠ s.rootIdx →
       (Dialog.dialogOpenFn cfg s).1.siblingInert i = true) ∧
    (∀ i : Nat, i < s.nSiblings → i ≠ s.rootIdx →
       (Dialog.dialogCloseFn cfg (Dialog.dialogOpenFn cfg s).1).1.siblingInert i = false) ∧
    (∀ i : Nat, i < s.nSiblings → s.siblingInert i = false →
       (Dialog.dialogCloseFn cfg (Dialog.dialogOpenFn cfg s).1).1.siblingInert i
         = s.siblingInert i) ∧
    (∀ i : Nat, i < bs.nNodes → (bs.nodes i).inModal = false →
       (bs.nodes i).roleDialog = false →
       ((BuildDialog.buildShow bcfg bs).1.nodes i).tabindexAttr = some (-1)) ∧
    (∀ i : Nat, i < bs.nNodes → (bs.nodes i).inModal = false →
       ((BuildDialog.buildClose bcfg (BuildDialog.buildShow bcfg bs).1).1.nodes i).tabindexAttr
         = (bs.nodes i).tabindexAttr) := by
  refine ⟨?_, ?_, ?_, ?_, ?_⟩
  · intro i hi hne
    exact Dialog.inert_while_open cfg s hm hclosed i hi hne
  · intro i hi hne
    exact Dialog.inert_cleared_on_close cfg s hm hclosed i hi hne
  · intro i hi hpre
    exact Dialog.inert_restored_if_interactive cfg s hm hclosed i hi hpre
  · intro i hi hin hrd
    exact BuildDialog.buildShow_trap bcfg bs hbm hbclosed i hi hin hrd
  · intro i hi hin
    exact BuildDialog.buildClose_restores bcfg bs hbm hbclosed i hi hin

theorem modal_sibling_noninteractive_restore_witness :
    (inertWitCfg.attrs.modeless = false ∧ inertWitDoc.dialogOpen = false ∧
     buildWitCfg.modeless = false ∧ buildWitState.ariaHidden = true) ∧
    ((∀ i : Nat, i < inertWitDoc.nSiblings → i ≠ inertWitDoc.rootIdx →
       (Dialog.dialogOpenFn inertWitCfg inertWitDoc).1.siblingInert i = true) ∧
     (∀ i : Nat, i < inertWitDoc.nSiblings → i ≠ inertWitDoc.rootIdx →
       (Dialog.dialogCloseFn inertWitCfg
         (Dialog.dialogOpenFn inertWitCfg inertWitDoc).1).1.siblingInert i = false) ∧
     (∀ i : Nat, i < inertWitDoc.nSiblings → inertWitDoc.siblingInert i = false →
       (Dialog.dialogCloseFn inertWitCfg
         (Dialog.dialogOpenFn inertWitCfg inertWitDoc).1).1.siblingInert i
         = inertWitDoc.siblingInert i) ∧
     (∀ i : Nat, i < buildWitState.nNodes → (buildWitState.nodes i).inModal = false →
       (buildWitState.nodes i).roleDialog = false →
       ((BuildDialog.buildShow buildWitCfg buildWitState).1.nodes i).tabindexAttr
         = some (-1)) ∧
     (∀ i : Nat, i < buildWitState.nNodes → (buildWitState.nodes i).inModal = false →
       ((BuildDialog.buildClose buildWitCfg
           (BuildDialog.buildShow buildWitCfg buildWitState).1).1.nodes i).tabindexAttr
         = (buildWitState.nodes i).tabindexAttr)) :=
  ⟨⟨rfl, rfl, rfl, rfl⟩,
   modal_sibling_noninteractive_restore inertWitCfg inertWitDoc rfl rfl
     buildWitCfg buildWitState rfl rfl⟩

/-- C3: for either dialog variant, opening from the closed state and then
closing restores `document.activeElement` to the exact element that was
focused at the moment `open()`/`show()` was called, and clears the stored
reference (`previousActiveElement` / `_lastFocusedElement`). -/
theorem dialog_focus_restore
    (cfg : Dialog.DialogCfg) (s : Dialog.DialogDoc) (hclosed : s.dialogOpen = false)
    (bcfg : BuildDialog.BuildCfg) (bs : BuildDialog.BuildState)
    (hb : bs.ariaHidden = true) :
    ((Dialog.dialogCloseFn cfg (Dialog.dialogOpenFn cfg s).1).1.activeElement
        = s.activeElement ∧
     (Dialog.dialogCloseFn cfg (Dialog.dialogOpenFn cfg s).1).1.previousActiveElement
        = none) ∧
    ((BuildDialog.buildClose bcfg (BuildDialog.buildShow bcfg bs).1).1.activeElement
        = bs.activeElement ∧
     (BuildDialog.buildClose bcfg (BuildDialog.buildShow bcfg bs).1).1.lastFocused
        = none) := by
  constructor
  · by_cases hm : cfg.attrs.modeless = false
    · have ho := Dialog.dialogOpenFn_modal_eq cfg s hm hclosed
      have hopen : (Dialog.dialogOpenFn cfg s).1.dialogOpen = true := by rw [ho]
      rw [Dialog.dialogCloseFn_modal_eq cfg _ hm hopen, ho]
      exact ⟨rfl, rfl⟩
    · have hm2 : cfg.attrs.modeless = true := by
        revert hm
        cases cfg.attrs.modeless <;> simp
      have ho := Dialog.dialogOpenFn_modeless_eq cfg s hm2 hclosed
      have hopen : (Dialog.dialogOpenFn cfg s).1.dialogOpen = true := by rw [ho]
      rw [Dialog.dialogCloseFn_modeless_eq cfg _ hm2 hopen, ho]
      exact ⟨rfl, rfl⟩
  · by_cases hm : bcfg.modeless = false
    · have hs := BuildDialog.buildShow_modal_eq bcfg bs hm hb
      have hopen : (BuildDialog.buildShow bcfg bs).1.ariaHidden = false := by rw [hs]
      rw [BuildDialog.buildClose_modal_eq bcfg _ hm hopen, hs]
      exact ⟨rfl, rfl⟩
    · have hm2 : bcfg.modeless = true := by
        revert hm
        cases bcfg.modeless <;> simp
      have hs := BuildDialog.buildShow_modeless_eq bcfg bs hm2 hb
      have hopen : (BuildDialog.buildShow bcfg bs).1.ariaHidden = false := by rw [hs]
      rw [BuildDialog.buildClose_modeless_eq bcfg _ hm2 hopen, hs]
      exact ⟨rfl, rfl⟩

theorem dialog_focus_restore_witness :
    (focusWitDoc.dialogOpen = false ∧ buildWitState.ariaHidden = true) ∧
    (((Dialog.dialogCloseFn inertWitCfg
        (Dialog.dialogOpenFn inertWitCfg focusWitDoc).1).1.activeElement
        = focusWitDoc.activeElement ∧
      (Dialog.dialogCloseFn inertWitCfg
        (Dialog.dialogOpenFn inertWitCfg focusWitDoc).1).1.previousActiveElement
        = none) ∧
     ((BuildDialog.buildClose buildWitCfg
        (BuildDialog.buildShow buildWitCfg buildWitState).1).1.activeElement
        = buildWitState.activeElement ∧
      (BuildDialog.buildClose buildWitCfg
        (BuildDialog.buildShow buildWitCfg buildWitState).1).1.lastFocused = none)) :=
  ⟨⟨rfl, rfl⟩,
   dialog_focus_restore inertWitCfg focusWitDoc rfl buildWitCfg buildWitState rfl⟩

/-- C6 (code bug): the inert-variant source documents a `no-esc` attribute
("Don't close the modal on escape key"), but its OPTIONS record reads only
`modeless` and `checkCloseDialog` closes on Escape unconditionally: a modal
dialog created with `no-esc` present is still closed by an Escape keydown
while open. -/
theorem noEsc_attribute_ignored :
    noEscCfg.attrs.noEsc = true ∧
    (Dialog.dialogOpenFn noEscCfg noEscDoc).1.dialogOpen = true ∧
    (Dialog.docDeliver noEscCfg
      { kind := Dialog.EvKind.keydown, which := 27, target := [3, 0] }
      (Dialog.dialogOpenFn noEscCfg noEscDoc).1).1.dialogOpen = false := by
  decide

/-- C7 counterexample: the build variant's mousedown handler never closes the
dialog: `pointerCexState` is an open modal build-variant dialog, the target
`[5]` is outside the dialog according to the ancestor walk, and after the
pointer-down the dialog is still open. -/
theorem outside_pointer_close_cex :
    pointerCexState.ariaHidden = false ∧
    climb pointerCexCfg.dlgPath [5] ≠ pointerCexCfg.dlgPath ∧
    (BuildDialog.buildMousedown pointerCexCfg [5] pointerCexState).1.ariaHidden = false := by
  decide

/-- C7 (amended): in the inert variant, a click whose target is not the
dialog or one of its descendants (the ancestor walk does not reach the
dialog) closes the dialog, and a click on the dialog or a descendant leaves
the state unchanged; in the build variant an outside pointer-down never
closes the modal dialog — it only cancels the event (`preventDefault`,
`stopPropagation`) — while an inside pointer-down is not cancelled. -/
theorem outside_pointer_behavior
    (cfg : Dialog.DialogCfg) (s : Dialog.DialogDoc)
    (hopen : s.dialogOpen = true) (hlis : s.listening = true)
    (e : Dialog.DocEvent) (hk : e.kind = Dialog.EvKind.click)
    (bcfg : BuildDialog.BuildCfg) (bs : BuildDialog.BuildState)
    (hbm : bcfg.modeless = false) (hbl : bs.listening = true) (t : List Nat) :
    (¬ cfg.dlgPath <:+ e.target → (Dialog.docDeliver cfg e s).1.dialogOpen = false) ∧
    (cfg.dlgPath <:+ e.target →
      (Dialog.docDeliver cfg e s).1 = s ∧ (Dialog.docDeliver cfg e s).2 = []) ∧
    (¬ bcfg.dlgPath <:+ t →
      (BuildDialog.buildMousedown bcfg t bs).1 = bs ∧
      (BuildDialog.buildMousedown bcfg t bs).2 = true) ∧
    (bcfg.dlgPath <:+ t →
      (BuildDialog.buildMousedown bcfg t bs).1 = bs ∧
      (BuildDialog.buildMousedown bcfg t bs).2 = false) := by
  have hnotesc : ¬ (e.kind = Dialog.EvKind.keydown ∧ e.which = 27) := by
    intro h
    rw [hk] at h
    exact absurd h.1 (by simp)
  have hdel : Dialog.docDeliver cfg e s =
      (if climb cfg.dlgPath e.target ≠ cfg.dlgPath
       then Dialog.dialogCloseFn cfg s else (s, [])) := by
    unfold Dialog.docDeliver Dialog.checkCloseDialog
    rw [if_pos hlis, if_neg hnotesc]
  have hbdel : BuildDialog.buildMousedown bcfg t bs =
      (if climb bcfg.dlgPath t ≠ bcfg.dlgPath then (bs, true) else (bs, false)) := by
    unfold BuildDialog.buildMousedown BuildDialog.clickHandler
    rw [if_pos hbl, if_neg (by simp [hbm])]
  refine ⟨?_, ?_, ?_, ?_⟩
  · intro hout
    rw [hdel, if_pos (fun hcl => hout ((climb_eq_iff _ _).mp hcl))]
    exact Dialog.dialogCloseFn_closes cfg s hopen
  · intro hin
    rw [hdel, if_neg (not_not_intro ((climb_eq_iff _ _).mpr hin))]
    exact ⟨rfl, rfl⟩
  · intro hout
    rw [hbdel, if_pos (fun hcl => hout ((climb_eq_iff _ _).mp hcl))]
    exact ⟨rfl, rfl⟩
  · intro hin
    rw [hbdel, if_neg (not_not_intro ((climb_eq_iff _ _).mpr hin))]
    exact ⟨rfl, rfl⟩

theorem outside_pointer_behavior_witness :
    (openListeningDoc.dialogOpen = true ∧ openListeningDoc.listening = true ∧
     ({ kind := Dialog.EvKind.click, which := 0, target := [5] } :
        Dialog.DocEvent).kind = Dialog.EvKind.click ∧
     pointerCexCfg.modeless = false ∧ pointerCexState.listening = true) ∧
    ((¬ inertCexCfg.dlgPath <:+
        ({ kind := Dialog.EvKind.click, which := 0, target := [5] } :
          Dialog.DocEvent).target →
      (Dialog.docDeliver inertCexCfg
        { kind := Dialog.EvKind.click, which := 0, target := [5] }
        openListeningDoc).1.dialogOpen = false) ∧
     (inertCexCfg.dlgPath <:+
        ({ kind := Dialog.EvKind.click, which := 0, target := [5] } :
          Dialog.DocEvent).target →
      (Dialog.docDeliver inertCexCfg
        { kind := Dialog.EvKind.click, which := 0, target := [5] }
        openListeningDoc).1 = openListeningDoc ∧
      (Dialog.docDeliver inertCexCfg
        { kind := Dialog.EvKind.click, which := 0, target := [5] }
        openListeningDoc).2 = []) ∧
     (¬ pointerCexCfg.dlgPath <:+ [9] →
      (BuildDialog.buildMousedown pointerCexCfg [9] pointerCexState).1 = pointerCexState ∧
      (BuildDialog.buildMousedown pointerCexCfg [9] pointerCexState).2 = true) ∧
     (pointerCexCfg.dlgPath <:+ [9] →
      (BuildDialog.buildMousedown pointerCexCfg [9] pointerCexState).1 = pointerCexState ∧
      (BuildDialog.buildMousedown pointerCexCfg [9] pointerCexState).2 = false)) :=
  ⟨⟨rfl, rfl, rfl, rfl, rfl⟩,
   outside_pointer_behavior inertCexCfg openListeningDoc rfl rfl
     { kind := Dialog.EvKind.click, which := 0, target := [5] } rfl
     pointerCexCfg pointerCexState rfl rfl [9]⟩

/-- C8 counterexample: a successful inert-variant `open()` emits zero
bubbling notifications (its single `modal-opened` event is created without
the `bubbles` option), and a successful build-variant `close()` emits no
notification at all. -/
theorem notification_bubbling_cex :
    (Dialog.dialogOpenFn notifCexCfg notifCexDoc).1.dialogOpen = true ∧
    ((Dialog.dialogOpenFn notifCexCfg notifCexDoc).2.filter
      (fun ev => ev.bubbles)).length = 0 ∧
    notifCexBState.ariaHidden = false ∧
    (BuildDialog.buildClose notifCexBCfg notifCexBState).1.ariaHidden = true ∧
    (BuildDialog.buildClose notifCexBCfg notifCexBState).2.length = 0 := by
  decide

/-- C8 (amended): in the inert variant every successful open emits exactly
one non-bubbling `modal-opened` notification carrying the dialog element as
detail, every successful close emits exactly one non-bubbling `modal-closed`
notification carrying the dialog element, and in the Escape scenario the
closed notification fires exactly once; build-variant `show` and `close`
emit no notification, and only its Escape keydown path emits a single
non-bubbling `dialog-closed` notification without payload. -/
theorem notification_emission
    (cfg : Dialog.DialogCfg) (s s2 : Dialog.DialogDoc)
    (hclosed : s.dialogOpen = false) (hopen : s2.dialogOpen = true)
    (hlis : s2.listening = true)
    (bcfg : BuildDialog.BuildCfg) (bs bs2 : BuildDialog.BuildState)
    (hblis : bs2.listening = true) :
    (Dialog.dialogOpenFn cfg s).2 =
      [{ name := "modal-opened", bubbles := false, detail := some cfg.dialogEl }] ∧
    (Dialog.dialogCloseFn cfg s2).2 =
      [{ name := "modal-closed", bubbles := false, detail := some cfg.dialogEl }] ∧
    ((Dialog.docDeliver cfg
        { kind := Dialog.EvKind.keydown, which := 27, target := [] } s2).2.filter
        (fun ev => ev.name == "modal-closed")).length = 1 ∧
    (BuildDialog.buildShow bcfg bs).2 = [] ∧
    (BuildDialog.buildClose bcfg bs).2 = [] ∧
    (BuildDialog.buildKeydown bcfg 27 bs2).2 =
      [{ name := "dialog-closed", bubbles := false, detail := none }] := by
  refine ⟨Dialog.dialogOpenFn_events cfg s hclosed,
    Dialog.dialogCloseFn_events cfg s2 hopen, ?_,
    BuildDialog.buildShow_events bcfg bs, BuildDialog.buildClose_events bcfg bs, ?_⟩
  · unfold Dialog.docDeliver Dialog.checkCloseDialog
    rw [if_pos hlis, if_pos ⟨rfl, rfl⟩, Dialog.dialogCloseFn_events cfg s2 hopen]
    simp
  · unfold BuildDialog.buildKeydown BuildDialog.keydownHandler
    rw [if_pos hblis, if_pos rfl]
    dsimp only
    rw [BuildDialog.buildClose_events bcfg bs2]

theorem notification_emission_witness :
    (notifCexDoc.dialogOpen = false ∧ openListeningDoc.dialogOpen = true ∧
     openListeningDoc.listening = true ∧ pointerCexState.listening = true) ∧
    ((Dialog.dialogOpenFn notifCexCfg notifCexDoc).2 =
      [{ name := "modal-opened", bubbles := false, detail := some notifCexCfg.dialogEl }] ∧
     (Dialog.dialogCloseFn notifCexCfg openListeningDoc).2 =
      [{ name := "modal-closed", bubbles := false, detail := some notifCexCfg.dialogEl }] ∧
     ((Dialog.docDeliver notifCexCfg
        { kind := Dialog.EvKind.keydown, which := 27, target := [] }
        openListeningDoc).2.filter (fun ev => ev.name == "modal-closed")).length = 1 ∧
     (BuildDialog.buildShow notifCexBCfg notifCexBState).2 = [] ∧
     (BuildDialog.buildClose notifCexBCfg notifCexBState).2 = [] ∧
     (BuildDialog.buildKeydown notifCexBCfg 27 pointerCexState).2 =
      [{ name := "dialog-closed", bubbles := false, detail := none }]) :=
  ⟨⟨rfl, rfl, rfl, rfl⟩,
   notification_emission notifCexCfg notifCexDoc openListeningDoc rfl rfl rfl
     notifCexBCfg notifCexBState pointerCexState rfl⟩

/-- C10: in the inert variant, while the dialog is open the single handler
registered for both click and keydown routes every non-Escape keydown
through the outside-click ancestor walk, so a keydown whose key is not
Escape and whose target is not the dialog or one of its descendants closes
the dialog. -/
theorem nonesc_keydown_outside_closes
    (cfg : Dialog.DialogCfg) (s : Dialog.DialogDoc)
    (hopen : s.dialogOpen = true) (hlis : s.listening = true)
    (e : Dialog.DocEvent) (hk : e.kind = Dialog.EvKind.keydown)
    (hw : e.which ≠ 27) (ht : ¬ cfg.dlgPath <:+ e.target) :
    (Dialog.docDeliver cfg e s).1.dialogOpen = false := by
  have hnotesc : ¬ (e.kind = Dialog.EvKind.keydown ∧ e.which = 27) :=
    fun h => hw h.2
  unfold Dialog.docDeliver Dialog.checkCloseDialog
  rw [if_pos hlis, if_neg hnotesc]
  dsimp only
  rw [if_pos (fun hcl => ht ((climb_eq_iff _ _).mp hcl))]
  exact Dialog.dialogCloseFn_closes cfg s hopen

theorem nonesc_keydown_outside_closes_witness :
    (openListeningDoc.dialogOpen = true ∧ openListeningDoc.listening = true ∧
     ({ kind := Dialog.EvKind.keydown, which := 13, target := [5] } :
        Dialog.DocEvent).kind = Dialog.EvKind.keydown ∧
     ({ kind := Dialog.EvKind.keydown, which := 13, target := [5] } :
        Dialog.DocEvent).which ≠ 27 ∧
     ¬ inertCexCfg.dlgPath <:+
        ({ kind := Dialog.EvKind.keydown, which := 13, target := [5] } :
          Dialog.DocEvent).target) ∧
    (Dialog.docDeliver inertCexCfg
      { kind := Dialog.EvKind.keydown, which := 13, target := [5] }
      openListeningDoc).1.dialogOpen = false :=
  ⟨⟨rfl, rfl, rfl, by decide, by decide⟩,
   nonesc_keydown_outside_closes inertCexCfg openListeningDoc rfl rfl
     { kind := Dialog.EvKind.keydown, which := 13, target := [5] } rfl
     (by decide) (by decide)⟩

end AllyComponents
